import Mathlib

/-!
Shallow embedding of the nestbox-ai-functions SDK core
(`src/common/stream-manager.ts`, `src/common/grpc-client.ts`,
`src/common/event-configs.ts`, `src/chatbot/init.ts`, `src/agent/init.ts`)
together with theorems settling the frozen claims about it.

JavaScript objects are modelled as association lists of string keys and
JSON-like values; object-literal spread followed by explicit properties is
modelled by `setKey` (override in place when the key exists, append
otherwise), which matches the runtime semantics of
`\x7b ...payload, eventType: ..., ... \x7d`.
-/

namespace Nestbox

/-- A JSON-like value, the currency of `context`, `params` and payload data
in the SDK (everything is `any`-typed in the source and travels as JSON). -/
inductive JValue where
  | null : JValue
  | bool (b : Bool) : JValue
  | num (n : Int) : JValue
  | str (s : String) : JValue
  | arr (elems : List JValue) : JValue
  | obj (fields : List (String × JValue)) : JValue

/-- A JavaScript object: key/value pairs in insertion order. -/
abbrev JObject := List (String × JValue)

/-- JavaScript truthiness of a value (`"" `, `0`, `false`, `null`/absent are
falsy; objects and arrays are always truthy). -/
def truthy : JValue → Bool
  | JValue.null => false
  | JValue.bool b => b
  | JValue.num n => n != 0
  | JValue.str s => s != ""
  | JValue.arr _ => true
  | JValue.obj _ => true

/-- Property lookup on an object. -/
def getKey : JObject → String → Option JValue
  | [], _ => none
  | (k', v) :: rest, k => if k' = k then some v else getKey rest k

/-- Assigning property `k` on an object built by spread-then-override:
if `k` is already present its value is replaced in place (keys of a
JavaScript object are unique, so replacing the first occurrence is
replacing the only one), otherwise the pair is appended at the end.
This is the runtime semantics of an object literal
`\x7b ...o, k: v \x7d`. -/
def setKey : JObject → String → JValue → JObject
  | [], k, v => [(k, v)]
  | (k', v') :: rest, k, v =>
      if k' = k then (k, v) :: rest else (k', v') :: setKey rest k v

theorem getKey_setKey_same (o : JObject) (k : String) (v : JValue) :
    getKey (setKey o k v) k = some v := by
  induction o with
  | nil => simp [setKey, getKey]
  | cons p rest ih =>
    obtain ⟨k', v'⟩ := p
    by_cases hk : k' = k
    · rw [setKey, if_pos hk]
      simp [getKey]
    · rw [setKey, if_neg hk]
      rw [getKey, if_neg hk]
      exact ih

theorem getKey_setKey_other (o : JObject) (k k' : String) (v : JValue)
    (hne : k ≠ k') : getKey (setKey o k' v) k = getKey o k := by
  induction o with
  | nil =>
    have : ¬ (k' = k) := fun hx => hne hx.symm
    simp [setKey, getKey, this]
  | cons p rest ih =>
    obtain ⟨k₀, v₀⟩ := p
    by_cases hk : k₀ = k'
    · rw [setKey, if_pos hk]
      have h1 : ¬ (k' = k) := fun hx => hne hx.symm
      have h2 : ¬ (k₀ = k) := fun hx => h1 (hk ▸ hx)
      rw [getKey, if_neg h1, getKey, if_neg h2]
    · rw [setKey, if_neg hk]
      by_cases hkk : k₀ = k
      · rw [getKey, if_pos hkk, getKey, if_pos hkk]
      · rw [getKey, if_neg hkk, getKey, if_neg hkk]
        exact ih

/-! ## Event configuration table (`src/common/event-configs.ts`) -/

/-- The four event keys of `EVENT_CONFIGS`. -/
inductive EventKey where
  | queryCreated
  | queryCompleted
  | queryFailed
  | eventCreated
deriving DecidableEq

/-- `EVENT_CONFIGS[key].eventType`. -/
def eventTypeOf : EventKey → String
  | EventKey.queryCreated => "QUERY_CREATED"
  | EventKey.queryCompleted => "QUERY_COMPLETED"
  | EventKey.queryFailed => "QUERY_FAILED"
  | EventKey.eventCreated => "EVENT_CREATED"

/-- `EVENT_CONFIGS[key].webhookListener`. -/
def webhookListenerOf : EventKey → String
  | EventKey.queryCreated => "emitQueryCreated"
  | EventKey.queryCompleted => "emitQueryCompleted"
  | EventKey.queryFailed => "emitQueryFailed"
  | EventKey.eventCreated => "emitEventCreated"

/-! ## Context and the envelope builder (`StreamManager.emit`) -/

/-- The fields of the (dynamically typed) `context` object that
`StreamManager.emit` reads.  `JValue.null` models an absent
(`undefined`) field, which is falsy like every other falsy value. -/
structure Ctx where
  queryId : JValue := JValue.null
  params : JValue := JValue.null
  agentId : JValue := JValue.null
  chatbotId : JValue := JValue.null
  messages : JValue := JValue.null

/-- The `completePayload` object built inside `StreamManager.emit`:
spread the caller payload, then assign `eventType`, `webhookListener`,
`queryId`, `params`, and conditionally spread the identity fields
`agentId`, `chatbotId`, `messages` when the corresponding context field
is truthy. -/
def completePayload (context : Ctx) (eventKey : EventKey) (payload : JObject) :
    JObject :=
  let p1 := setKey payload "eventType" (JValue.str (eventTypeOf eventKey))
  let p2 := setKey p1 "webhookListener" (JValue.str (webhookListenerOf eventKey))
  let p3 := setKey p2 "queryId" context.queryId
  let p4 := setKey p3 "params" context.params
  let p5 := if truthy context.agentId then setKey p4 "agentId" context.agentId else p4
  let p6 := if truthy context.chatbotId then setKey p5 "chatbotId" context.chatbotId else p5
  if truthy context.messages then setKey p6 "messages" context.messages else p6

/-! ## Result dispatcher (`StreamManager.sendMessageToServer`) and `emit`

`sendMessageToServer` serializes the payload, invokes the unary
`SendResult` call exactly once and settles its promise from that single
callback.  The callback outcome is the environment's input: `none` for a
success callback, `some e` for an error callback.  The second component
counts how many `SendResult` invocations the call performs. -/

def sendMessageToServer (payload : JObject) (callbackErr : Option String) :
    Except String Unit × Nat :=
  match payload, callbackErr with
  | _, some e => (Except.error e, 1)
  | _, none => (Except.ok (), 1)

/-- `StreamManager.emit`: build `completePayload`, await the single send,
return the complete payload on success and the send error on failure.
The `Nat` component counts `SendResult` invocations. -/
def emit (context : Ctx) (eventKey : EventKey) (payload : JObject)
    (callbackErr : Option String) : Except String JObject × Nat :=
  let env := completePayload context eventKey payload
  match sendMessageToServer env callbackErr with
  | (Except.error e, n) => (Except.error e, n)
  | (Except.ok _, n) => (Except.ok env, n)

/-! ## Connection manager state machine (`StreamManager` + `grpc-client.ts`)

The manager runs on a single event loop.  `startTaskStream` checks the
guard `if (this.activeCall) return` synchronously, then launches an async
block that suspends at `await waitForServerReady(2000)`; the suspended
continuation is a pending probe.  A scheduled reconnect timer is a pending
timer.  The environment later resolves the oldest pending item
(`resolveNext`), supplying the probe outcome and, for a failure, the
jitter value `Math.floor(Math.random() * 300)`.  Externally visible calls
(`TaskStream`, handler registration, scheduled waits, `cancel`, `close`)
are accumulated in an effect record. -/

/-- `this.MAX_BACKOFF`. -/
def MAX_BACKOFF : Nat := 10000

/-- A suspended continuation awaiting the event loop. -/
inductive Pending where
  | probe : Pending
  | timer (wait : Nat) : Pending
deriving DecidableEq

/-- Externally observable effects, in order of occurrence. -/
structure Eff where
  taskStreamCalls : List Nat := []
  handlerRegs : List (Nat × List String) := []
  scheduledWaits : List Nat := []
  cancels : List Nat := []
  clientCloses : Nat := 0
deriving DecidableEq

/-- The manager's instance state plus the event-loop queue and the
module-level gRPC client of `grpc-client.ts` (`clientOpen`). -/
structure World where
  activeCall : Option Nat := none
  backoffMs : Nat := 1000
  clientOpen : Bool := false
  pending : List Pending := []
  nextId : Nat := 0
  eff : Eff := {}
deriving DecidableEq

/-- The freshly constructed manager: `activeCall = null`,
`backoffMs = 1000`, no client, nothing pending. -/
def initialWorld : World := {}

/-- `StreamManager.startTaskStream`, synchronous part: the guard, then
`waitForServerReady` (which lazily creates the client via `getClient`)
is invoked and the async block suspends as a pending probe. -/
def startTaskStream (w : World) : World :=
  if w.activeCall.isSome then w
  else { w with clientOpen := true, pending := w.pending ++ [Pending.probe] }

/-- `StreamManager.scheduleReconnect`: compute
`wait = min(MAX_BACKOFF, backoffMs) + jitter` and schedule a timer for it.
`backoffMs` is only doubled later, when the timer fires. -/
def scheduleReconnect (w : World) (jitter : Nat) : World :=
  let wait := min MAX_BACKOFF w.backoffMs + jitter
  { w with pending := w.pending ++ [Pending.timer wait],
           eff := { w.eff with scheduledWaits := w.eff.scheduledWaits ++ [wait] } }

/-- `StreamManager.start` (the stream-state part; the process signal
handlers it also installs are outside the manager's own state). -/
def start (w : World) : World := startTaskStream w

/-- Outcome the environment supplies for a pending probe. -/
inductive ProbeOutcome where
  | ok
  | fail
deriving DecidableEq

/-- The event loop resolves the oldest pending item.

* A probe that succeeds runs the rest of the async block of
  `startTaskStream`: `getClient`, `TaskStream` (a fresh stream id),
  `this.activeCall = call`, `this.backoffMs = 1000`, and registration of
  the `data`, `error`, `end`, `close` handlers.  Note the source does
  not re-check `activeCall` after the `await`.
* A probe that fails runs the `catch` branch: `scheduleReconnect`.
* A timer firing runs the `setTimeout` body:
  `backoffMs = min(MAX_BACKOFF, backoffMs * 2)` then `startTaskStream`. -/
def resolveNext (w : World) (o : ProbeOutcome) (jitter : Nat) : World :=
  match w.pending with
  | [] => w
  | Pending.probe :: rest =>
      match o with
      | ProbeOutcome.ok =>
          let id := w.nextId
          { w with pending := rest,
                   clientOpen := true,
                   nextId := id + 1,
                   activeCall := some id,
                   backoffMs := 1000,
                   eff := { w.eff with
                     taskStreamCalls := w.eff.taskStreamCalls ++ [id],
                     handlerRegs := w.eff.handlerRegs ++
                       [(id, ["data", "error", "end", "close"])] } }
      | ProbeOutcome.fail => scheduleReconnect { w with pending := rest } jitter
  | Pending.timer _ :: rest =>
      startTaskStream
        { w with pending := rest,
                 backoffMs := min MAX_BACKOFF (w.backoffMs * 2) }

/-- The `onDisconnected` closure registered for a stream `call`:
clear `activeCall` only when it still references this very stream,
log, and schedule a reconnect. -/
def onDisconnected (w : World) (call : Nat) (jitter : Nat) : World :=
  scheduleReconnect
    { w with activeCall := if w.activeCall = some call then none else w.activeCall }
    jitter

/-- `closeClient` from `grpc-client.ts`: close and drop the module-level
client when one exists. -/
def closeClient (w : World) : World :=
  if w.clientOpen then
    { w with clientOpen := false,
             eff := { w.eff with clientCloses := w.eff.clientCloses + 1 } }
  else w

/-- `StreamManager.cleanup`: cancel the active stream when one exists and
clear the reference, then release the client. -/
def cleanup (w : World) : World :=
  closeClient
    (match w.activeCall with
     | some c =>
         { w with activeCall := none,
                  eff := { w.eff with cancels := w.eff.cancels ++ [c] } }
     | none => w)

/-! ### Consecutive-failure iteration for the backoff claim -/

/-- One full failure cycle starting from a world whose oldest pending item
is a probe: the probe fails (scheduling a reconnect with jitter `j`),
then the timer fires (doubling the stored backoff and re-probing). -/
def failCycle (w : World) (j : Nat) : World :=
  resolveNext (resolveNext w ProbeOutcome.fail j) ProbeOutcome.ok 0

/-- The world after `start` and `n` complete failure cycles with jitters
`js 0, …, js (n-1)`. -/
def afterFailures (js : Nat → Nat) : Nat → World
  | 0 => start initialWorld
  | n + 1 => failCycle (afterFailures js n) (js n)

/-- The stored `backoffMs` while the `(n+1)`-th probe is pending. -/
def backoffState : Nat → Nat
  | 0 => 1000
  | n + 1 => min MAX_BACKOFF (backoffState n * 2)

/-! ## Task dispatch adapters (`src/chatbot/init.ts`, `src/agent/init.ts`)

A user handler invocation either returns normally, throws synchronously,
or returns a promise that rejects.  A thrown/rejected JavaScript value is
either an `Error` instance (which carries a `.message` string) or a plain
value. -/

/-- A JavaScript value as thrown by / rejected from a handler. -/
inductive Thrown where
  | errObj (message : String) : Thrown
  | plain (v : JValue) : Thrown

/-- `e?.message`: an `Error` yields its message; a plain object yields its
`message` property when present; other plain values have none. -/
def messageOf : Thrown → Option JValue
  | Thrown.errObj m => some (JValue.str m)
  | Thrown.plain (JValue.obj fields) => getKey fields "message"
  | Thrown.plain _ => none

/-- The raw failure value as it appears once JSON-serialized into the
envelope (`JSON.stringify` of an `Error` instance is the empty object). -/
def rawThrown : Thrown → JValue
  | Thrown.errObj _ => JValue.obj []
  | Thrown.plain v => v

/-- `e?.message || e`: the message when it is truthy, the raw value
otherwise. -/
def failureData (e : Thrown) : JValue :=
  match messageOf e with
  | some m => if truthy m then m else rawThrown e
  | none => rawThrown e

/-- Result of one user-handler invocation, as observed by the dispatch
boundary. -/
inductive HandlerResult where
  | ok
  | threwSync (e : Thrown)
  | rejected (e : Thrown)

/-- The `onTask` callback of `initChatbot`
(`Promise.resolve().then(() => chatbot(context, event)).catch(...)`):
both a synchronous throw and an eventual rejection funnel into the single
`catch`, which performs exactly one
`event.emitQueryFailed(\x7b data: e?.message || e \x7d)`.
The result lists the envelopes whose send is attempted by the boundary
itself (the handler's own emitter calls are not part of the boundary). -/
def chatbotOnTask (context : Ctx) (r : HandlerResult) : List JObject :=
  match r with
  | HandlerResult.ok => []
  | HandlerResult.threwSync e =>
      [completePayload context EventKey.queryFailed [("data", failureData e)]]
  | HandlerResult.rejected e =>
      [completePayload context EventKey.queryFailed [("data", failureData e)]]

/-- The `process.on("message")` dispatch of the pm2-based `initAgent`:
`agent(context, event)` is invoked with no `try`/`catch` and its returned
promise is not observed.  A synchronous throw escapes the message handler
(`Except.error`), a rejection is simply lost; in neither case does the
boundary attempt any envelope send. -/
def agentOnMessage (context : Ctx) (r : HandlerResult) :
    Except Thrown (List JObject) :=
  match context, r with
  | _, HandlerResult.ok => Except.ok []
  | _, HandlerResult.threwSync e => Except.error e
  | _, HandlerResult.rejected _ => Except.ok []

/-- Envelope-send attempts made by the agent message handler (none when
the handler's exception escapes). -/
def agentBoundarySends : Except Thrown (List JObject) → List JObject
  | Except.error _ => []
  | Except.ok l => l

/-- The `call.on("data")` handler of `startTaskStream`:
`JSON.parse(task.payload.toString("utf8"))` and then
`this.options.onTask(context)`.  The decode of the payload bytes is
abstracted by a `decode` function (`none` models a `JSON.parse` throw);
there is no `try`/`catch` around it, so a decode failure propagates
(`Except.error`) and `onTask` is never reached.  On success the result
records one `onTask` invocation together with the envelope sends the
dispatch performs. -/
def onData (decode : List Nat → Option Ctx) (onTask : Ctx → List JObject)
    (payloadBytes : List Nat) : Except Unit (Nat × List JObject) :=
  match decode payloadBytes with
  | none => Except.error ()
  | some context => Except.ok (1, onTask context)

/-- Number of `onTask` (user-handler dispatch) invocations performed by a
`data` event. -/
def onDataInvocations : Except Unit (Nat × List JObject) → Nat
  | Except.error _ => 0
  | Except.ok (n, _) => n

/-- Envelope-send attempts performed by a `data` event with eventType
`QUERY_FAILED`. -/
def onDataQueryFailedSends : Except Unit (Nat × List JObject) → List JObject
  | Except.error _ => []
  | Except.ok (_, l) =>
      l.filter (fun env =>
        match getKey env "eventType" with
        | some (JValue.str s) => s == "QUERY_FAILED"
        | _ => false)

/-! ## Helper lemmas about `completePayload` -/

theorem getKey_ite_setKey_other (c : Prop) [Decidable c] (o : JObject)
    (k k' : String) (v : JValue) (hne : k ≠ k') :
    getKey (if c then setKey o k' v else o) k = getKey o k := by
  split_ifs with h
  · exact getKey_setKey_other o k k' v hne
  · rfl

theorem completePayload_eventType (context : Ctx) (eventKey : EventKey)
    (payload : JObject) :
    getKey (completePayload context eventKey payload) "eventType" =
      some (JValue.str (eventTypeOf eventKey)) := by
  unfold completePayload
  rw [getKey_ite_setKey_other _ _ _ _ _ (by decide),
      getKey_ite_setKey_other _ _ _ _ _ (by decide),
      getKey_ite_setKey_other _ _ _ _ _ (by decide),
      getKey_setKey_other _ _ _ _ (by decide),
      getKey_setKey_other _ _ _ _ (by decide),
      getKey_setKey_other _ _ _ _ (by decide),
      getKey_setKey_same]

theorem completePayload_webhookListener (context : Ctx) (eventKey : EventKey)
    (payload : JObject) :
    getKey (completePayload context eventKey payload) "webhookListener" =
      some (JValue.str (webhookListenerOf eventKey)) := by
  unfold completePayload
  rw [getKey_ite_setKey_other _ _ _ _ _ (by decide),
      getKey_ite_setKey_other _ _ _ _ _ (by decide),
      getKey_ite_setKey_other _ _ _ _ _ (by decide),
      getKey_setKey_other _ _ _ _ (by decide),
      getKey_setKey_other _ _ _ _ (by decide),
      getKey_setKey_same]

theorem completePayload_queryId (context : Ctx) (eventKey : EventKey)
    (payload : JObject) :
    getKey (completePayload context eventKey payload) "queryId" =
      some context.queryId := by
  unfold completePayload
  rw [getKey_ite_setKey_other _ _ _ _ _ (by decide),
      getKey_ite_setKey_other _ _ _ _ _ (by decide),
      getKey_ite_setKey_other _ _ _ _ _ (by decide),
      getKey_setKey_other _ _ _ _ (by decide),
      getKey_setKey_same]

theorem completePayload_params (context : Ctx) (eventKey : EventKey)
    (payload : JObject) :
    getKey (completePayload context eventKey payload) "params" =
      some context.params := by
  unfold completePayload
  rw [getKey_ite_setKey_other _ _ _ _ _ (by decide),
      getKey_ite_setKey_other _ _ _ _ _ (by decide),
      getKey_ite_setKey_other _ _ _ _ _ (by decide),
      getKey_setKey_same]

theorem completePayload_agentId_truthy (context : Ctx) (eventKey : EventKey)
    (payload : JObject) (h : truthy context.agentId = true) :
    getKey (completePayload context eventKey payload) "agentId" =
      some context.agentId := by
  unfold completePayload
  rw [getKey_ite_setKey_other _ _ _ _ _ (by decide),
      getKey_ite_setKey_other _ _ _ _ _ (by decide),
      if_pos h, getKey_setKey_same]

theorem completePayload_agentId_falsy (context : Ctx) (eventKey : EventKey)
    (payload : JObject) (h : truthy context.agentId = false) :
    getKey (completePayload context eventKey payload) "agentId" =
      getKey payload "agentId" := by
  unfold completePayload
  rw [getKey_ite_setKey_other _ _ _ _ _ (by decide),
      getKey_ite_setKey_other _ _ _ _ _ (by decide),
      if_neg (by simp [h]),
      getKey_setKey_other _ _ _ _ (by decide),
      getKey_setKey_other _ _ _ _ (by decide),
      getKey_setKey_other _ _ _ _ (by decide),
      getKey_setKey_other _ _ _ _ (by decide)]

theorem completePayload_chatbotId_truthy (context : Ctx) (eventKey : EventKey)
    (payload : JObject) (h : truthy context.chatbotId = true) :
    getKey (completePayload context eventKey payload) "chatbotId" =
      some context.chatbotId := by
  unfold completePayload
  rw [getKey_ite_setKey_other _ _ _ _ _ (by decide),
      if_pos h, getKey_setKey_same]

theorem completePayload_chatbotId_falsy (context : Ctx) (eventKey : EventKey)
    (payload : JObject) (h : truthy context.chatbotId = false) :
    getKey (completePayload context eventKey payload) "chatbotId" =
      getKey payload "chatbotId" := by
  unfold completePayload
  rw [getKey_ite_setKey_other _ _ _ _ _ (by decide),
      if_neg (by simp [h]),
      getKey_ite_setKey_other _ _ _ _ _ (by decide),
      getKey_setKey_other _ _ _ _ (by decide),
      getKey_setKey_other _ _ _ _ (by decide),
      getKey_setKey_other _ _ _ _ (by decide),
      getKey_setKey_other _ _ _ _ (by decide)]

theorem completePayload_messages_truthy (context : Ctx) (eventKey : EventKey)
    (payload : JObject) (h : truthy context.messages = true) :
    getKey (completePayload context eventKey payload) "messages" =
      some context.messages := by
  unfold completePayload
  rw [if_pos h, getKey_setKey_same]

theorem completePayload_messages_falsy (context : Ctx) (eventKey : EventKey)
    (payload : JObject) (h : truthy context.messages = false) :
    getKey (completePayload context eventKey payload) "messages" =
      getKey payload "messages" := by
  unfold completePayload
  rw [if_neg (by simp [h]),
      getKey_ite_setKey_other _ _ _ _ _ (by decide),
      getKey_ite_setKey_other _ _ _ _ _ (by decide),
      getKey_setKey_other _ _ _ _ (by decide),
      getKey_setKey_other _ _ _ _ (by decide),
      getKey_setKey_other _ _ _ _ (by decide),
      getKey_setKey_other _ _ _ _ (by decide)]

/-! ## Claim theorems -/

/-- Claim C2: for every context and every caller payload, the envelope
built by `emit` carries exactly the fixed `eventType`/`webhookListener`
pair of the event key and the context's `queryId` and `params`, overriding
any same-named caller keys; and concretely, `emitQueryCompleted` with
payload `data = X` on the context with `queryId` q1, `agentId` a1 and
params `k = v` yields exactly the envelope with fields `data = X`,
`eventType = QUERY_COMPLETED`, `webhookListener = emitQueryCompleted`,
`queryId = q1`, `params`, `agentId = a1` — whatever keys `X` contains. -/
theorem C2_envelope_field_integrity :
    (∀ (context : Ctx) (eventKey : EventKey) (payload : JObject),
        getKey (completePayload context eventKey payload) "eventType" =
          some (JValue.str (eventTypeOf eventKey)) ∧
        getKey (completePayload context eventKey payload) "webhookListener" =
          some (JValue.str (webhookListenerOf eventKey)) ∧
        getKey (completePayload context eventKey payload) "queryId" =
          some context.queryId ∧
        getKey (completePayload context eventKey payload) "params" =
          some context.params) ∧
    (∀ X : JValue,
        completePayload
          { queryId := JValue.str "q1", agentId := JValue.str "a1",
            params := JValue.obj [("k", JValue.str "v")] }
          EventKey.queryCompleted [("data", X)] =
        [("data", X),
         ("eventType", JValue.str "QUERY_COMPLETED"),
         ("webhookListener", JValue.str "emitQueryCompleted"),
         ("queryId", JValue.str "q1"),
         ("params", JValue.obj [("k", JValue.str "v")]),
         ("agentId", JValue.str "a1")]) := by
  constructor
  · intro context eventKey payload
    exact ⟨completePayload_eventType context eventKey payload,
           completePayload_webhookListener context eventKey payload,
           completePayload_queryId context eventKey payload,
           completePayload_params context eventKey payload⟩
  · intro X
    rfl

/-- Claim C10: the identity fields `agentId`, `chatbotId`, `messages` are
copied into the envelope only when the corresponding context field is
truthy; when it is absent or falsy, a same-named caller-payload key passes
through un-overridden; only `eventType`, `webhookListener`, `queryId` and
`params` are overwritten unconditionally. -/
theorem C10_conditional_identity_fields :
    (∀ (context : Ctx) (eventKey : EventKey) (payload : JObject),
        (truthy context.agentId = true →
          getKey (completePayload context eventKey payload) "agentId" =
            some context.agentId) ∧
        (truthy context.agentId = false →
          getKey (completePayload context eventKey payload) "agentId" =
            getKey payload "agentId") ∧
        (truthy context.chatbotId = true →
          getKey (completePayload context eventKey payload) "chatbotId" =
            some context.chatbotId) ∧
        (truthy context.chatbotId = false →
          getKey (completePayload context eventKey payload) "chatbotId" =
            getKey payload "chatbotId") ∧
        (truthy context.messages = true →
          getKey (completePayload context eventKey payload) "messages" =
            some context.messages) ∧
        (truthy context.messages = false →
          getKey (completePayload context eventKey payload) "messages" =
            getKey payload "messages")) ∧
    (∀ (context : Ctx) (eventKey : EventKey) (payload : JObject),
        getKey (completePayload context eventKey payload) "eventType" =
          some (JValue.str (eventTypeOf eventKey)) ∧
        getKey (completePayload context eventKey payload) "webhookListener" =
          some (JValue.str (webhookListenerOf eventKey)) ∧
        getKey (completePayload context eventKey payload) "queryId" =
          some context.queryId ∧
        getKey (completePayload context eventKey payload) "params" =
          some context.params) := by
  constructor
  · intro context eventKey payload
    exact ⟨completePayload_agentId_truthy context eventKey payload,
           completePayload_agentId_falsy context eventKey payload,
           completePayload_chatbotId_truthy context eventKey payload,
           completePayload_chatbotId_falsy context eventKey payload,
           completePayload_messages_truthy context eventKey payload,
           completePayload_messages_falsy context eventKey payload⟩
  · intro context eventKey payload
    exact ⟨completePayload_eventType context eventKey payload,
           completePayload_webhookListener context eventKey payload,
           completePayload_queryId context eventKey payload,
           completePayload_params context eventKey payload⟩

/-- Witness for C10 at a concrete context whose `agentId` is the falsy
empty string: a caller-supplied `agentId` key survives into the envelope,
while `queryId` is still overwritten. -/
theorem C10_conditional_identity_fields_witness :
    getKey
      (completePayload
        { queryId := JValue.str "q1", agentId := JValue.str "",
          params := JValue.null }
        EventKey.queryCompleted
        [("agentId", JValue.str "spoofed"), ("queryId", JValue.str "spoofed")])
      "agentId" = some (JValue.str "spoofed") ∧
    getKey
      (completePayload
        { queryId := JValue.str "q1", agentId := JValue.str "",
          params := JValue.null }
        EventKey.queryCompleted
        [("agentId", JValue.str "spoofed"), ("queryId", JValue.str "spoofed")])
      "queryId" = some (JValue.str "q1") := by
  refine ⟨?_, ?_⟩
  · rw [(C10_conditional_identity_fields.1
      { queryId := JValue.str "q1", agentId := JValue.str "",
        params := JValue.null }
      EventKey.queryCompleted
      [("agentId", JValue.str "spoofed"), ("queryId", JValue.str "spoofed")]).2.1
      (by rfl)]
    rfl
  · exact (C10_conditional_identity_fields.2
      { queryId := JValue.str "q1", agentId := JValue.str "",
        params := JValue.null }
      EventKey.queryCompleted
      [("agentId", JValue.str "spoofed"), ("queryId", JValue.str "spoofed")]).2.2.1

/-- Claim C7: `sendMessageToServer` performs exactly one `SendResult`
invocation, resolving exactly when the callback reports no error and
rejecting with the callback's error otherwise; `emit` resolves to the
complete envelope it built and rejects exactly when that single send
fails. -/
theorem C7_send_and_emit_promise_contract :
    (∀ (payload : JObject) (e : String),
        sendMessageToServer payload (some e) = (Except.error e, 1)) ∧
    (∀ payload : JObject,
        sendMessageToServer payload none = (Except.ok (), 1)) ∧
    (∀ (context : Ctx) (eventKey : EventKey) (payload : JObject) (e : String),
        emit context eventKey payload (some e) = (Except.error e, 1)) ∧
    (∀ (context : Ctx) (eventKey : EventKey) (payload : JObject),
        emit context eventKey payload none =
          (Except.ok (completePayload context eventKey payload), 1)) := by
  refine ⟨fun _ _ => rfl, fun _ => rfl, fun _ _ _ _ => rfl, fun _ _ _ => rfl⟩

/-- Helper: `cleanup` of a world with no active stream and no client
changes nothing. -/
theorem cleanup_of_clean (u : World) (h1 : u.activeCall = none)
    (h2 : u.clientOpen = false) : cleanup u = u := by
  simp [cleanup, closeClient, h1, h2]

/-- Claim C9: `cleanup()` cancels the active stream when one exists,
clears the stream reference, and releases the underlying client; it is
safe to call repeatedly — after one call no active stream and no client
remain, and `cleanup` composed with itself equals `cleanup`. -/
theorem C9_cleanup_idempotent :
    (∀ (w : World) (c : Nat), w.activeCall = some c →
        (cleanup w).eff.cancels = w.eff.cancels ++ [c] ∧
        (cleanup w).activeCall = none) ∧
    (∀ w : World, w.clientOpen = true →
        (cleanup w).eff.clientCloses = w.eff.clientCloses + 1 ∧
        (cleanup w).clientOpen = false) ∧
    (∀ w : World, (cleanup w).activeCall = none ∧ (cleanup w).clientOpen = false) ∧
    (∀ w : World, cleanup (cleanup w) = cleanup w) := by
  have hstate : ∀ w : World,
      (cleanup w).activeCall = none ∧ (cleanup w).clientOpen = false := by
    intro w
    cases h : w.activeCall <;> by_cases hc : w.clientOpen <;>
      simp [cleanup, closeClient, h, hc]
  refine ⟨?_, ?_, hstate, ?_⟩
  · intro w c h
    by_cases hc : w.clientOpen <;> simp [cleanup, closeClient, h, hc]
  · intro w hc
    cases h : w.activeCall <;> simp [cleanup, closeClient, h, hc]
  · intro w
    obtain ⟨h1, h2⟩ := hstate w
    exact cleanup_of_clean (cleanup w) h1 h2

/-- Witness for C9 on a world with an active stream (id 5) and an open
client: the first cleanup cancels stream 5 and clears everything, and a
second cleanup is the identity on the result. -/
theorem C9_cleanup_idempotent_witness :
    (cleanup { activeCall := some 5, clientOpen := true }).eff.cancels = [5] ∧
    (cleanup { activeCall := some 5, clientOpen := true }).activeCall = none ∧
    (cleanup { activeCall := some 5, clientOpen := true }).clientOpen = false ∧
    cleanup (cleanup { activeCall := some 5, clientOpen := true }) =
      cleanup { activeCall := some 5, clientOpen := true } := by
  refine ⟨?_, ?_, ?_, ?_⟩
  · exact (C9_cleanup_idempotent.1 { activeCall := some 5, clientOpen := true } 5 rfl).1
  · exact (C9_cleanup_idempotent.1 { activeCall := some 5, clientOpen := true } 5 rfl).2
  · exact (C9_cleanup_idempotent.2.1 { activeCall := some 5, clientOpen := true } rfl).2
  · exact C9_cleanup_idempotent.2.2.2 { activeCall := some 5, clientOpen := true }

/-- Claim C5: a stream's disconnect handler clears the active-stream
reference only under a reference-identity check, so a stale handler never
nulls out a newer stream's reference; apart from the stream reference and
the scheduled reconnect (pending timer and its logged wait), the
manager's state is unchanged. -/
theorem C5_disconnect_identity_guard :
    ∀ (w : World) (call jitter : Nat),
      (w.activeCall = some call → (onDisconnected w call jitter).activeCall = none) ∧
      (∀ newer : Nat, w.activeCall = some newer → newer ≠ call →
        (onDisconnected w call jitter).activeCall = some newer) ∧
      (onDisconnected w call jitter).backoffMs = w.backoffMs ∧
      (onDisconnected w call jitter).clientOpen = w.clientOpen ∧
      (onDisconnected w call jitter).nextId = w.nextId ∧
      (onDisconnected w call jitter).eff.taskStreamCalls = w.eff.taskStreamCalls ∧
      (onDisconnected w call jitter).eff.handlerRegs = w.eff.handlerRegs ∧
      (onDisconnected w call jitter).eff.cancels = w.eff.cancels ∧
      (onDisconnected w call jitter).eff.clientCloses = w.eff.clientCloses ∧
      (onDisconnected w call jitter).pending =
        w.pending ++ [Pending.timer (min MAX_BACKOFF w.backoffMs + jitter)] := by
  intro w call jitter
  refine ⟨?_, ?_, ?_, ?_, ?_, ?_, ?_, ?_, ?_, ?_⟩ <;>
    simp [onDisconnected, scheduleReconnect]
  · intro h
    simp [h]
  · intro newer h hne
    simp [h, Option.some_inj, hne]

/-- Witness for C5: a stale stream 3 disconnects while stream 7 is the
active one — stream 7's reference survives; and when the active stream 7
itself disconnects, the reference is cleared. -/
theorem C5_disconnect_identity_guard_witness :
    (onDisconnected { activeCall := some 7 } 3 0).activeCall = some 7 ∧
    (onDisconnected { activeCall := some 7 } 7 0).activeCall = none ∧
    (onDisconnected { activeCall := some 7 } 3 0).backoffMs = 1000 := by
  refine ⟨?_, ?_, ?_⟩
  · exact (C5_disconnect_identity_guard { activeCall := some 7 } 3 0).2.1 7 rfl
      (by decide)
  · exact (C5_disconnect_identity_guard { activeCall := some 7 } 7 0).1 rfl
  · exact (C5_disconnect_identity_guard { activeCall := some 7 } 3 0).2.2.1

/-- Claim C6: when the readiness probe succeeds the manager opens the task
stream, resets the backoff to its 1000ms floor, and registers the `data`,
`error`, `end`, `close` handlers; when the probe fails no stream is opened
and a reconnect is scheduled instead. -/
theorem C6_probe_transitions :
    ∀ (w : World) (rest : List Pending) (jitter : Nat),
      w.pending = Pending.probe :: rest →
      ((resolveNext w ProbeOutcome.ok jitter).eff.taskStreamCalls =
          w.eff.taskStreamCalls ++ [w.nextId] ∧
        (resolveNext w ProbeOutcome.ok jitter).activeCall = some w.nextId ∧
        (resolveNext w ProbeOutcome.ok jitter).backoffMs = 1000 ∧
        (resolveNext w ProbeOutcome.ok jitter).eff.handlerRegs =
          w.eff.handlerRegs ++ [(w.nextId, ["data", "error", "end", "close"])] ∧
        (resolveNext w ProbeOutcome.ok jitter).eff.scheduledWaits =
          w.eff.scheduledWaits) ∧
      ((resolveNext w ProbeOutcome.fail jitter).eff.taskStreamCalls =
          w.eff.taskStreamCalls ∧
        (resolveNext w ProbeOutcome.fail jitter).activeCall = w.activeCall ∧
        (resolveNext w ProbeOutcome.fail jitter).eff.scheduledWaits =
          w.eff.scheduledWaits ++ [min MAX_BACKOFF w.backoffMs + jitter]) := by
  intro w rest jitter h
  refine ⟨⟨?_, ?_, ?_, ?_, ?_⟩, ⟨?_, ?_, ?_⟩⟩ <;>
    simp [resolveNext, h, scheduleReconnect]

/-- Witness for C6 on the freshly started manager (one pending probe):
probe success opens stream 0, resets backoff and registers the four
handlers; probe failure opens nothing and schedules a 1000ms + 42ms wait. -/
theorem C6_probe_transitions_witness :
    (resolveNext (start initialWorld) ProbeOutcome.ok 42).eff.taskStreamCalls = [0] ∧
    (resolveNext (start initialWorld) ProbeOutcome.ok 42).eff.handlerRegs =
      [(0, ["data", "error", "end", "close"])] ∧
    (resolveNext (start initialWorld) ProbeOutcome.fail 42).eff.taskStreamCalls = [] ∧
    (resolveNext (start initialWorld) ProbeOutcome.fail 42).eff.scheduledWaits =
      [1042] := by
  have h := C6_probe_transitions (start initialWorld) [] 42 rfl
  refine ⟨?_, ?_, ?_, ?_⟩
  · simpa using h.1.1
  · simpa using h.1.2.2.2.1
  · simpa using h.2.1
  · simpa using h.2.2.2

/-- Claim C8: when a task's payload bytes fail to decode, the `data`
handler's decode throws and nothing handles it — the user handler is not
invoked and no `QUERY_FAILED` envelope is synthesized for that task. -/
theorem C8_decode_failure_unhandled :
    ∀ (decode : List Nat → Option Ctx) (onTask : Ctx → List JObject)
      (payloadBytes : List Nat),
      decode payloadBytes = none →
      onData decode onTask payloadBytes = Except.error () ∧
      onDataInvocations (onData decode onTask payloadBytes) = 0 ∧
      onDataQueryFailedSends (onData decode onTask payloadBytes) = [] := by
  intro decode onTask payloadBytes h
  refine ⟨?_, ?_, ?_⟩ <;> simp [onData, h, onDataInvocations, onDataQueryFailedSends]

/-- Witness for C8 at a concrete undecodable byte payload. -/
theorem C8_decode_failure_unhandled_witness :
    onData (fun _ => none) (fun _ => []) [0xff] = Except.error () ∧
    onDataInvocations (onData (fun _ => none) (fun _ => []) [0xff]) = 0 := by
  have h := C8_decode_failure_unhandled (fun _ => none) (fun _ => []) [0xff] rfl
  exact ⟨h.1, h.2.1⟩

/-- Claim C3 (evaluation at the failing input): the chatbot dispatch
boundary reacts to a handler throwing `Error("boom")` with exactly one
`QUERY_FAILED` envelope whose `data` is `"boom"`, but the pm2-based
agent dispatch invokes the handler with no failure boundary at all: the
synchronous throw escapes the message handler and no `QUERY_FAILED`
envelope is sent, contradicting both the claim and the repository's own
agent-init test, which expects the error message in a `QUERY_FAILED`
envelope. -/
theorem C3_agent_boundary_missing :
    (chatbotOnTask { queryId := JValue.str "q1" }
        (HandlerResult.threwSync (Thrown.errObj "boom"))).length = 1 ∧
    (chatbotOnTask { queryId := JValue.str "q1" }
        (HandlerResult.threwSync (Thrown.errObj "boom"))).head? =
      some (completePayload { queryId := JValue.str "q1" }
        EventKey.queryFailed [("data", JValue.str "boom")]) ∧
    getKey
      (completePayload { queryId := JValue.str "q1" }
        EventKey.queryFailed [("data", failureData (Thrown.errObj "boom"))])
      "eventType" = some (JValue.str "QUERY_FAILED") ∧
    getKey
      (completePayload { queryId := JValue.str "q1" }
        EventKey.queryFailed [("data", failureData (Thrown.errObj "boom"))])
      "data" = some (JValue.str "boom") ∧
    agentOnMessage { queryId := JValue.str "q1" }
        (HandlerResult.threwSync (Thrown.errObj "boom")) =
      Except.error (Thrown.errObj "boom") ∧
    agentBoundarySends
      (agentOnMessage { queryId := JValue.str "q1" }
        (HandlerResult.threwSync (Thrown.errObj "boom"))) = [] ∧
    agentBoundarySends
      (agentOnMessage { queryId := JValue.str "q1" }
        (HandlerResult.rejected (Thrown.errObj "boom"))) = [] := by
  refine ⟨rfl, rfl, rfl, rfl, rfl, rfl, rfl⟩

/-- Claim C1 counterexample: two `start()` calls in immediate succession
do NOT result in exactly one `TaskStream` call.  The guard
`if (this.activeCall) return` is checked before the async block suspends
at `await waitForServerReady`, and `activeCall` is only assigned after
that await — so the second immediate `start()` still sees a null
`activeCall`, launches a second probe (an effect, although the state is
Connecting, not Idle), and when both probes succeed, `TaskStream` is
called twice. -/
theorem C1_counterexample :
    (start (start initialWorld)).pending = [Pending.probe, Pending.probe] ∧
    (resolveNext (resolveNext (start (start initialWorld)) ProbeOutcome.ok 0)
        ProbeOutcome.ok 0).eff.taskStreamCalls = [0, 1] ∧
    ¬ ((resolveNext (resolveNext (start (start initialWorld)) ProbeOutcome.ok 0)
        ProbeOutcome.ok 0).eff.taskStreamCalls.length = 1) := by
  refine ⟨rfl, rfl, ?_⟩
  decide

/-- Claim C1 as amended: `start()` is a no-op only while a stream handle
is actually active (`activeCall` non-null, i.e. the Streaming state);
while a connection attempt is still in flight or a reconnect timer is
pending (`activeCall` null), `start()` is not idempotent — a second
immediate `start()` launches a second readiness probe, and each probe
that succeeds opens its own stream. -/
theorem C1_start_noop_only_while_streaming :
    (∀ w : World, w.activeCall.isSome = true → start w = w) ∧
    (∀ w : World, w.activeCall = none →
      (start w).pending = w.pending ++ [Pending.probe]) ∧
    ((resolveNext (start (start initialWorld)) ProbeOutcome.ok 0).pending =
      [Pending.probe] ∧
     (resolveNext (start (start initialWorld)) ProbeOutcome.ok 0).activeCall =
      some 0) := by
  refine ⟨?_, ?_, rfl, rfl⟩
  · intro w h
    simp [start, startTaskStream, h]
  · intro w h
    simp [start, startTaskStream, h]

/-- Witness for the amended C1: on a world whose stream 4 is active,
`start()` changes nothing; on the initial world it queues a probe. -/
theorem C1_start_noop_only_while_streaming_witness :
    start { activeCall := some 4 } = { activeCall := some 4 } ∧
    (start initialWorld).pending = [Pending.probe] := by
  constructor
  · exact C1_start_noop_only_while_streaming.1 { activeCall := some 4 } rfl
  · simpa using C1_start_noop_only_while_streaming.2.1 initialWorld rfl

/-- Helper: after `start` and `n` complete failure cycles, exactly one
probe is pending, no stream is active, and the stored backoff is
`backoffState n`. -/
theorem afterFailures_invariant (js : Nat → Nat) :
    ∀ n, (afterFailures js n).pending = [Pending.probe] ∧
      (afterFailures js n).activeCall = none ∧
      (afterFailures js n).backoffMs = backoffState n := by
  intro n
  induction n with
  | zero =>
    refine ⟨rfl, rfl, rfl⟩
  | succ n ih =>
    obtain ⟨h1, h2, h3⟩ := ih
    refine ⟨?_, ?_, ?_⟩ <;>
      simp [afterFailures, failCycle, resolveNext, h1, h2, h3,
        scheduleReconnect, startTaskStream, backoffState]

/-- Helper: the stored backoff after `n` doublings is
`min 10000 (1000 * 2 ^ n)`. -/
theorem backoffState_closed : ∀ n, backoffState n = min 10000 (1000 * 2 ^ n) := by
  intro n
  induction n with
  | zero => rfl
  | succ n ih =>
    have h : backoffState (n + 1) = min MAX_BACKOFF (backoffState n * 2) := rfl
    rw [h, ih, pow_succ, ← mul_assoc]
    have hM : MAX_BACKOFF = 10000 := rfl
    rw [hM]
    omega

/-- Claim C4: for `N` consecutive connection failures the wait scheduled
before the `N`-th retry equals `min(10000, 1000 * 2 ^ (N-1))` plus the
jitter in `[0, 300)`; the stored backoff value never exceeds the 10000ms
ceiling; and the base waits for `N = 1..6` are
1000, 2000, 4000, 8000, 10000, 10000. -/
theorem C4_backoff_schedule :
    (∀ (js : Nat → Nat) (N j : Nat), 1 ≤ N → j < 300 →
        ((resolveNext (afterFailures js (N - 1))
            ProbeOutcome.fail j).eff.scheduledWaits).getLast? =
          some (min 10000 (1000 * 2 ^ (N - 1)) + j)) ∧
    (∀ (js : Nat → Nat) (n : Nat), (afterFailures js n).backoffMs ≤ 10000) ∧
    ((List.range 6).map (fun k => min MAX_BACKOFF (backoffState k)) =
      [1000, 2000, 4000, 8000, 10000, 10000]) := by
  refine ⟨?_, ?_, by decide⟩
  · intro js N j _hN _hj
    obtain ⟨h1, _h2, h3⟩ := afterFailures_invariant js (N - 1)
    have hwait :
        (resolveNext (afterFailures js (N - 1))
            ProbeOutcome.fail j).eff.scheduledWaits =
          (afterFailures js (N - 1)).eff.scheduledWaits ++
            [min MAX_BACKOFF (backoffState (N - 1)) + j] := by
      simp [resolveNext, h1, h3, scheduleReconnect]
    rw [hwait, List.getLast?_concat]
    have : min MAX_BACKOFF (backoffState (N - 1)) =
        min 10000 (1000 * 2 ^ (N - 1)) := by
      rw [backoffState_closed]
      have hM : MAX_BACKOFF = 10000 := rfl
      rw [hM]
      omega
    rw [this]
  · intro js n
    have h3 := (afterFailures_invariant js n).2.2
    rw [h3, backoffState_closed]
    omega

/-- Witness for C4 at the fifth consecutive failure with jitter 7: the
scheduled wait is `min(10000, 1000 * 2^4) + 7 = 10007` ms. -/
theorem C4_backoff_schedule_witness :
    ((resolveNext (afterFailures (fun _ => 0) 4)
        ProbeOutcome.fail 7).eff.scheduledWaits).getLast? = some 10007 ∧
    (afterFailures (fun _ => 0) 9).backoffMs ≤ 10000 := by
  constructor
  · have h := C4_backoff_schedule.1 (fun _ => 0) 5 7 (by decide) (by decide)
    simpa using h
  · exact C4_backoff_schedule.2.1 (fun _ => 0) 9

end Nestbox
